import Mathlib

/-!
Verification of the CSV SQL chatbot (`src/app.py`): a Streamlit app that
loads an uploaded CSV into DuckDB, asks an LLM to translate a question
into SQL, executes it, and on execution failure feeds the failing SQL and
the engine error back to the LLM for a bounded number of corrective
retries.

The LLM (`llm.invoke`) and the query engine (`con.execute`) are external
collaborators; we model each as an oracle returning `Except String α`
(`.error` = the call raised, carrying the exception message).  The
functions `generate_sql`, `execute_with_retry` and the Run-Query handler
are translated directly from the source; traces of execution attempts and
corrective (fix) model calls are returned alongside the result so that
call-counting properties can be stated.
-/

namespace Botted

/-- A dataset: an ordered column schema plus rows (cell values as strings;
the row representation is irrelevant to the properties here). -/
structure Dataset where
  columns : List String
  rows : List (List String)

/-- A DuckDB connection's catalog: a map from table names to datasets. -/
def Conn : Type := String → Option Dataset

/-- `con.register(name, df)` / `CREATE OR REPLACE TABLE name ...`:
both bind `name` to the dataset, replacing any previous binding. -/
def createOrReplaceTable (con : Conn) (name : String) (d : Dataset) : Conn :=
  fun n => if n = name then some d else con n

/-- The upload handler (src/app.py lines 29-42): registers the dataframe
as `df`, copies it into table `data` with CREATE OR REPLACE, and sets
`columns = list(df.columns)`.  Returns the new catalog and the retained
schema. -/
def uploadHandler (con : Conn) (df : Dataset) : Conn × List String :=
  (createOrReplaceTable (createOrReplaceTable con "df" df) "data" df, df.columns)

/-- `", ".join(columns)` (src/app.py lines 97 and 116). -/
def joinCols (columns : List String) : String :=
  String.intercalate ", " columns

/-- Literal segment of the generation prompt template before the columns
placeholder (src/app.py lines 50-54). -/
def sqlPromptSeg1 : String :=
  "\nYou are a senior SQL expert.\n\nTable: data\nColumns: "

/-- Literal segment of the generation prompt template between the columns
and the question placeholders (src/app.py lines 54-64). -/
def sqlPromptSeg2 : String :=
  "\n\nRules:\n- Output ONLY SQL\n- Use correct aggregate functions\n- Use GROUP BY properly\n- DuckDB compatible SQL only\n- No explanations\n\nQuestion:\n"

/-- Literal segment of the generation prompt template after the question
placeholder (src/app.py line 65). -/
def sqlPromptSeg3 : String := "\n"

/-- `sql_prompt.format(question=..., columns=...)` (src/app.py lines
48-66, 95-98): the template literal with the two placeholders
substituted. -/
def sqlPromptFormat (question columnsText : String) : String :=
  sqlPromptSeg1 ++ columnsText ++ sqlPromptSeg2 ++ question ++ sqlPromptSeg3

/-- Literal segment of the fix prompt template before the sql placeholder
(src/app.py lines 73-77). -/
def fixPromptSeg1 : String :=
  "\nThe following SQL caused an error:\n\nSQL:\n"

/-- Literal segment of the fix prompt template between the sql and error
placeholders (src/app.py lines 77-80). -/
def fixPromptSeg2 : String := "\n\nError:\n"

/-- Literal segment of the fix prompt template between the error and
columns placeholders (src/app.py lines 80-83). -/
def fixPromptSeg3 : String := "\n\nTable columns:\n"

/-- Literal segment of the fix prompt template after the columns
placeholder (src/app.py lines 83-87). -/
def fixPromptSeg4 : String :=
  "\n\nFix the SQL so that it executes correctly.\nReturn ONLY corrected SQL.\n"

/-- `fix_prompt.format(sql=..., error=..., columns=...)` (src/app.py
lines 71-88, 112-118). -/
def fixPromptFormat (sql error columnsText : String) : String :=
  fixPromptSeg1 ++ sql ++ fixPromptSeg2 ++ error ++ fixPromptSeg3 ++ columnsText ++ fixPromptSeg4

/-- Python whitespace characters stripped by `str.strip()`. -/
def isPySpace (c : Char) : Bool :=
  c = ' ' || c = '\t' || c = '\n' || c = '\r' || c = '\x0b' || c = '\x0c'

/-- `str.strip()` on the character list: drop whitespace from both ends. -/
def pyStripList (l : List Char) : List Char :=
  (((l.dropWhile isPySpace).reverse).dropWhile isPySpace).reverse

/-- Python `str.strip()`. -/
def pyStrip (s : String) : String :=
  ⟨pyStripList s.data⟩

/-- Python `s.replace("", new)`: with an empty pattern, `str.replace`
inserts `new` before every character and once at the end
(`"abc".replace("", "X") = "XaXbXcX"`). -/
def pyReplaceEmptyOld (s new : List Char) : List Char :=
  match s with
  | [] => new
  | c :: rest => new ++ c :: pyReplaceEmptyOld rest new

/-- `.content.strip().replace("", "")` applied to a model response
(src/app.py lines 99 and 118). -/
def postProcess (content : String) : String :=
  ⟨pyReplaceEmptyOld (pyStripList content.data) []⟩

/-- `generate_sql(question)` (src/app.py lines 93-99): format prompt 1
with the question and the comma-joined columns, invoke the model, and
post-process the response.  A failing model call propagates. -/
def generate_sql (llm : String → Except String String)
    (columns : List String) (question : String) : Except String String :=
  (llm (sqlPromptFormat question (joinCols columns))).map postProcess

/-- Outcome of one query-answering cycle. -/
inductive CycleResult (ρ : Type) where
  /-- `return con.execute(sql).df(), sql`: rows plus the SQL that
  produced them. -/
  | ok (rows : ρ) (sql : String)
  /-- `raise e`: the last `ExecutionError` re-raised after the retry
  bound. -/
  | execFail (msg : String)
  /-- The model call itself raised (a `GenerationError`); it propagates
  uncaught. -/
  | genFail (msg : String)

/-- Record of one corrective model call: the failing SQL, the engine
error fed back, and the exact prompt string sent to the model. -/
structure FixRecord where
  failedSql : String
  errorMsg : String
  prompt : String

/-- `execute_with_retry(sql, retries)` (src/app.py lines 104-118),
instrumented: returns the cycle result, the list of SQL strings passed to
`con.execute` in order, and the list of corrective model calls in order.
`fuel` is the number of retries still allowed (`retries - attempt` in the
Python loop).  A failing execution with fuel left triggers exactly one
fix call; with no fuel left the error is re-raised.  A failing fix call
propagates uncaught (it happens inside the `except` block). -/
def execute_with_retry (llm : String → Except String String)
    (exec : String → Except String ρ) (columns : List String)
    (fuel : Nat) (sql : String) :
    CycleResult ρ × List String × List FixRecord :=
  match exec sql with
  | .ok rows => (.ok rows sql, [sql], [])
  | .error e =>
    match fuel with
    | 0 => (.execFail e, [sql], [])
    | r + 1 =>
      match llm (fixPromptFormat sql e (joinCols columns)) with
      | .error g =>
        (.genFail g, [sql], [⟨sql, e, fixPromptFormat sql e (joinCols columns)⟩])
      | .ok content =>
        let rest := execute_with_retry llm exec columns r (postProcess content)
        (rest.1, sql :: rest.2.1,
          ⟨sql, e, fixPromptFormat sql e (joinCols columns)⟩ :: rest.2.2)

/-- The default retry bound: `retries=2` (src/app.py line 104). -/
def defaultRetries : Nat := 2

/-- The Run-Query handler body inside the `try` (src/app.py lines
129-141), instrumented: generate SQL, then execute with the default retry
bound.  Returns the result together with the generation prompts sent, the
execution attempts, and the fix calls. -/
def runQuery (llm : String → Except String String)
    (exec : String → Except String ρ) (columns : List String)
    (retries : Nat) (question : String) :
    CycleResult ρ × List String × List String × List FixRecord :=
  match generate_sql llm columns question with
  | .error g => (.genFail g, [sqlPromptFormat question (joinCols columns)], [], [])
  | .ok sql =>
    let r := execute_with_retry llm exec columns retries sql
    (r.1, [sqlPromptFormat question (joinCols columns)], r.2.1, r.2.2)

/-- What the UI shows at the end of a cycle (src/app.py lines 134-141):
the final SQL and the rows on success, otherwise
`f"❌ Failed to execute query: \x7be\x7d"`. -/
inductive UiView (ρ : Type) where
  | success (finalSql : String) (rows : ρ)
  | failure (message : String)

/-- The full Run-Query handler including the `except` clause (src/app.py
lines 129-141). -/
def runHandler (llm : String → Except String String)
    (exec : String → Except String ρ) (columns : List String)
    (question : String) : UiView ρ :=
  match (runQuery llm exec columns defaultRetries question).1 with
  | .ok rows s => .success s rows
  | .execFail e => .failure ("❌ Failed to execute query: " ++ e)
  | .genFail g => .failure ("❌ Failed to execute query: " ++ g)

/-- All prompt strings sent to the model during one cycle: the generation
prompts followed by the fix prompts. -/
def promptsOf (r : CycleResult ρ × List String × List String × List FixRecord) :
    List String :=
  r.2.1 ++ r.2.2.2.map FixRecord.prompt

/-- Executable check that `needle` occurs starting at the head of `hay`. -/
def startsWithList : List Char → List Char → Bool
  | [], _ => true
  | _ :: _, [] => false
  | a :: as, b :: bs => a = b && startsWithList as bs

/-- Executable check that `needle` occurs as a contiguous segment of
`hay`. -/
def containsSeg (needle : List Char) : List Char → Bool
  | [] => startsWithList needle []
  | c :: t => startsWithList needle (c :: t) || containsSeg needle t

/-- `needle` occurs verbatim as a contiguous substring of `hay`
(stated on the underlying character lists). -/
def dataContains (needle hay : String) : Prop :=
  ∃ pre post : List Char, hay.data = pre ++ needle.data ++ post

/-- A catalog with no tables. -/
def conEmpty : Conn := fun _ => none

/-- A model oracle that always answers with the same SQL text. -/
def llmAlwaysOk : String → Except String String :=
  fun _ => Except.ok "SELECT 2"

/-- A model oracle whose call always raises (a `GenerationError`). -/
def llmAlwaysErr : String → Except String String :=
  fun _ => Except.error "rate limit"

/-- An engine oracle that rejects every SQL string with the same error. -/
def execAlwaysFail : String → Except String Nat :=
  fun _ => Except.error "boom"

/-- An engine oracle that accepts every SQL string. -/
def execAlwaysOk : String → Except String Nat :=
  fun _ => Except.ok 7

/-- A model oracle that answers the generation prompt for question `q`
over columns `region` with a bad candidate and every other prompt (in
particular any fix prompt) with a good one. -/
def llmFixing : String → Except String String :=
  fun p => if p = sqlPromptFormat "q" (joinCols ["region"]) then Except.ok "SELECT regoin FROM data"
    else Except.ok "SELECT region FROM data"

/-- An engine oracle that accepts only the corrected candidate. -/
def execSelective : String → Except String Nat :=
  fun s => if s = "SELECT region FROM data" then Except.ok 5
    else Except.error "Referenced column regoin not found"

variable {ρ : Type} (llm : String → Except String String)
variable (exec : String → Except String ρ) (columns : List String)

theorem pyReplaceEmptyOld_nil (l : List Char) : pyReplaceEmptyOld l [] = l := by
  induction l with
  | nil => rfl
  | cons c t ih => simp [pyReplaceEmptyOld, ih]

theorem postProcess_eq_pyStrip (s : String) : postProcess s = pyStrip s := by
  unfold postProcess pyStrip
  rw [pyReplaceEmptyOld_nil]

theorem sqlPromptFormat_data (q c : String) :
    (sqlPromptFormat q c).data =
      sqlPromptSeg1.data ++ c.data ++ sqlPromptSeg2.data ++ q.data ++ sqlPromptSeg3.data := by
  simp [sqlPromptFormat, String.data_append, List.append_assoc]

theorem fixPromptFormat_data (s e c : String) :
    (fixPromptFormat s e c).data =
      fixPromptSeg1.data ++ s.data ++ fixPromptSeg2.data ++ e.data ++
        fixPromptSeg3.data ++ c.data ++ fixPromptSeg4.data := by
  simp [fixPromptFormat, String.data_append, List.append_assoc]

theorem fixPromptFormat_contains_sql (s e c : String) :
    dataContains s (fixPromptFormat s e c) := by
  refine ⟨fixPromptSeg1.data,
    fixPromptSeg2.data ++ e.data ++ fixPromptSeg3.data ++ c.data ++ fixPromptSeg4.data, ?_⟩
  simp [fixPromptFormat_data, List.append_assoc]

theorem fixPromptFormat_contains_error (s e c : String) :
    dataContains e (fixPromptFormat s e c) := by
  refine ⟨fixPromptSeg1.data ++ s.data ++ fixPromptSeg2.data,
    fixPromptSeg3.data ++ c.data ++ fixPromptSeg4.data, ?_⟩
  simp [fixPromptFormat_data, List.append_assoc]

theorem fixPromptFormat_contains_cols (s e c : String) :
    dataContains c (fixPromptFormat s e c) := by
  refine ⟨fixPromptSeg1.data ++ s.data ++ fixPromptSeg2.data ++ e.data ++ fixPromptSeg3.data,
    fixPromptSeg4.data, ?_⟩
  simp [fixPromptFormat_data, List.append_assoc]

theorem sqlPromptFormat_contains_cols (q c : String) :
    dataContains c (sqlPromptFormat q c) := by
  refine ⟨sqlPromptSeg1.data,
    sqlPromptSeg2.data ++ q.data ++ sqlPromptSeg3.data, ?_⟩
  simp [sqlPromptFormat_data, List.append_assoc]

theorem startsWithList_self_append (n t : List Char) :
    startsWithList n (n ++ t) = true := by
  induction n with
  | nil => rfl
  | cons a as ih => simp [startsWithList, ih]

theorem containsSeg_self_append (mid post : List Char) :
    containsSeg mid (mid ++ post) = true := by
  cases h : mid ++ post with
  | nil =>
    have hm : mid = [] := (List.append_eq_nil.mp h).1
    subst hm
    rfl
  | cons c t =>
    have hs : startsWithList mid (c :: t) = true := by
      rw [← h]
      exact startsWithList_self_append mid post
    simp [containsSeg, hs]

theorem containsSeg_of_decomp (mid : List Char) :
    ∀ pre post hay : List Char, hay = pre ++ (mid ++ post) →
      containsSeg mid hay = true := by
  intro pre
  induction pre with
  | nil =>
    intro post hay h
    subst h
    simpa using containsSeg_self_append mid post
  | cons a as ih =>
    intro post hay h
    subst h
    have hr : containsSeg mid (as ++ (mid ++ post)) = true := ih post _ rfl
    simp [containsSeg, hr]

theorem ewr_exec_ok (fuel : Nat) (sql : String) (rows : ρ)
    (h : exec sql = .ok rows) :
    execute_with_retry llm exec columns fuel sql = (.ok rows sql, [sql], []) := by
  rw [execute_with_retry, h]

theorem ewr_exec_fail_zero (sql : String) (e : String)
    (h : exec sql = .error e) :
    execute_with_retry llm exec columns 0 sql = (.execFail e, [sql], []) := by
  rw [execute_with_retry, h]

theorem ewr_fix_genFail (r : Nat) (sql e g : String)
    (h : exec sql = .error e)
    (hl : llm (fixPromptFormat sql e (joinCols columns)) = .error g) :
    execute_with_retry llm exec columns (r + 1) sql =
      (.genFail g, [sql], [⟨sql, e, fixPromptFormat sql e (joinCols columns)⟩]) := by
  rw [execute_with_retry, h]
  simp only [hl]

theorem ewr_fix_ok (r : Nat) (sql e content : String)
    (h : exec sql = .error e)
    (hl : llm (fixPromptFormat sql e (joinCols columns)) = .ok content) :
    execute_with_retry llm exec columns (r + 1) sql =
      ((execute_with_retry llm exec columns r (postProcess content)).1,
       sql :: (execute_with_retry llm exec columns r (postProcess content)).2.1,
       ⟨sql, e, fixPromptFormat sql e (joinCols columns)⟩ ::
         (execute_with_retry llm exec columns r (postProcess content)).2.2) := by
  rw [execute_with_retry, h]
  simp only [hl]

theorem ewr_execs_length_le (fuel : Nat) (sql : String) :
    (execute_with_retry llm exec columns fuel sql).2.1.length ≤ fuel + 1 := by
  induction fuel generalizing sql with
  | zero =>
    cases h : exec sql with
    | ok rows => rw [ewr_exec_ok llm exec columns 0 sql rows h]; simp
    | error e => rw [ewr_exec_fail_zero llm exec columns sql e h]; simp
  | succ r ih =>
    cases h : exec sql with
    | ok rows => rw [ewr_exec_ok llm exec columns (r + 1) sql rows h]; simp
    | error e =>
      cases hl : llm (fixPromptFormat sql e (joinCols columns)) with
      | error g => rw [ewr_fix_genFail llm exec columns r sql e g h hl]; simp
      | ok c =>
        rw [ewr_fix_ok llm exec columns r sql e c h hl]
        simpa using ih (postProcess c)

theorem ewr_fixes_length_le (fuel : Nat) (sql : String) :
    (execute_with_retry llm exec columns fuel sql).2.2.length ≤ fuel := by
  induction fuel generalizing sql with
  | zero =>
    cases h : exec sql with
    | ok rows => rw [ewr_exec_ok llm exec columns 0 sql rows h]; simp
    | error e => rw [ewr_exec_fail_zero llm exec columns sql e h]; simp
  | succ r ih =>
    cases h : exec sql with
    | ok rows => rw [ewr_exec_ok llm exec columns (r + 1) sql rows h]; simp
    | error e =>
      cases hl : llm (fixPromptFormat sql e (joinCols columns)) with
      | error g => rw [ewr_fix_genFail llm exec columns r sql e g h hl]; simp
      | ok c =>
        rw [ewr_fix_ok llm exec columns r sql e c h hl]
        simpa using ih (postProcess c)

theorem getLast?_cons_of_some {α : Type} (a : α) (l : List α) (s : α)
    (h : l.getLast? = some s) : (a :: l).getLast? = some s := by
  cases l with
  | nil => simp at h
  | cons b t => rw [List.getLast?_cons_cons]; exact h

theorem ewr_execFail_last (fuel : Nat) (sql e : String)
    (h : (execute_with_retry llm exec columns fuel sql).1 = .execFail e) :
    ∃ s, (execute_with_retry llm exec columns fuel sql).2.1.getLast? = some s ∧
      exec s = .error e := by
  induction fuel generalizing sql with
  | zero =>
    cases hx : exec sql with
    | ok rows => rw [ewr_exec_ok llm exec columns 0 sql rows hx] at h; cases h
    | error e0 =>
      rw [ewr_exec_fail_zero llm exec columns sql e0 hx] at h ⊢
      cases h
      exact ⟨sql, rfl, hx⟩
  | succ r ih =>
    cases hx : exec sql with
    | ok rows => rw [ewr_exec_ok llm exec columns (r + 1) sql rows hx] at h; cases h
    | error e0 =>
      cases hl : llm (fixPromptFormat sql e0 (joinCols columns)) with
      | error g => rw [ewr_fix_genFail llm exec columns r sql e0 g hx hl] at h; cases h
      | ok c =>
        rw [ewr_fix_ok llm exec columns r sql e0 c hx hl] at h ⊢
        obtain ⟨s, hs, hse⟩ := ih (postProcess c) h
        exact ⟨s, getLast?_cons_of_some sql _ s hs, hse⟩

theorem ewr_ok_exec (fuel : Nat) (sql : String) (rows : ρ) (s : String)
    (h : (execute_with_retry llm exec columns fuel sql).1 = .ok rows s) :
    exec s = .ok rows ∧
      (execute_with_retry llm exec columns fuel sql).2.1.getLast? = some s := by
  induction fuel generalizing sql with
  | zero =>
    cases hx : exec sql with
    | ok rows0 =>
      rw [ewr_exec_ok llm exec columns 0 sql rows0 hx] at h ⊢
      cases h
      exact ⟨hx, rfl⟩
    | error e0 => rw [ewr_exec_fail_zero llm exec columns sql e0 hx] at h; cases h
  | succ r ih =>
    cases hx : exec sql with
    | ok rows0 =>
      rw [ewr_exec_ok llm exec columns (r + 1) sql rows0 hx] at h ⊢
      cases h
      exact ⟨hx, rfl⟩
    | error e0 =>
      cases hl : llm (fixPromptFormat sql e0 (joinCols columns)) with
      | error g => rw [ewr_fix_genFail llm exec columns r sql e0 g hx hl] at h; cases h
      | ok c =>
        rw [ewr_fix_ok llm exec columns r sql e0 c hx hl] at h ⊢
        obtain ⟨h1, h2⟩ := ih (postProcess c) h
        exact ⟨h1, getLast?_cons_of_some sql _ s h2⟩

theorem ewr_allFail (fuel : Nat) (sql : String)
    (hx : ∀ t, ∃ m, exec t = .error m)
    (hl : ∀ p, ∃ c, llm p = .ok c) :
    ∃ e, (execute_with_retry llm exec columns fuel sql).1 = .execFail e ∧
      (execute_with_retry llm exec columns fuel sql).2.1.length = fuel + 1 := by
  induction fuel generalizing sql with
  | zero =>
    obtain ⟨m, hm⟩ := hx sql
    rw [ewr_exec_fail_zero llm exec columns sql m hm]
    exact ⟨m, rfl, rfl⟩
  | succ r ih =>
    obtain ⟨m, hm⟩ := hx sql
    obtain ⟨c, hc⟩ := hl (fixPromptFormat sql m (joinCols columns))
    rw [ewr_fix_ok llm exec columns r sql m c hm hc]
    obtain ⟨e, he, hlen⟩ := ih (postProcess c)
    exact ⟨e, he, by simp [hlen]⟩

theorem ewr_fix_at (fuel : Nat) (sql : String) (k : Nat) (s e : String)
    (hget : (execute_with_retry llm exec columns fuel sql).2.1.get? k = some s)
    (hse : exec s = .error e) (hk : k < fuel) :
    (execute_with_retry llm exec columns fuel sql).2.2.get? k =
      some ⟨s, e, fixPromptFormat s e (joinCols columns)⟩ := by
  induction fuel generalizing sql k with
  | zero => exact absurd hk (Nat.not_lt_zero k)
  | succ r ih =>
    cases hx : exec sql with
    | ok rows =>
      rw [ewr_exec_ok llm exec columns (r + 1) sql rows hx] at hget
      cases k with
      | zero =>
        simp only [List.get?] at hget
        cases hget
        rw [hx] at hse
        cases hse
      | succ k0 => simp only [List.get?] at hget; cases hget
    | error e0 =>
      cases hl : llm (fixPromptFormat sql e0 (joinCols columns)) with
      | error g =>
        rw [ewr_fix_genFail llm exec columns r sql e0 g hx hl] at hget ⊢
        cases k with
        | zero =>
          simp only [List.get?] at hget
          cases hget
          rw [hx] at hse
          cases hse
          rfl
        | succ k0 => simp only [List.get?] at hget; cases hget
      | ok c =>
        rw [ewr_fix_ok llm exec columns r sql e0 c hx hl] at hget ⊢
        cases k with
        | zero =>
          simp only [List.get?] at hget
          cases hget
          rw [hx] at hse
          cases hse
          rfl
        | succ k0 =>
          simp only [List.get?] at hget ⊢
          exact ih (postProcess c) k0 hget (Nat.lt_of_succ_lt_succ hk)

theorem ewr_fix_prompt_mem (fuel : Nat) (sql : String) (f : FixRecord)
    (hf : f ∈ (execute_with_retry llm exec columns fuel sql).2.2) :
    f.prompt = fixPromptFormat f.failedSql f.errorMsg (joinCols columns) := by
  induction fuel generalizing sql with
  | zero =>
    cases hx : exec sql with
    | ok rows => rw [ewr_exec_ok llm exec columns 0 sql rows hx] at hf; simp at hf
    | error e => rw [ewr_exec_fail_zero llm exec columns sql e hx] at hf; simp at hf
  | succ r ih =>
    cases hx : exec sql with
    | ok rows => rw [ewr_exec_ok llm exec columns (r + 1) sql rows hx] at hf; simp at hf
    | error e =>
      cases hl : llm (fixPromptFormat sql e (joinCols columns)) with
      | error g =>
        rw [ewr_fix_genFail llm exec columns r sql e g hx hl] at hf
        simp only [List.mem_singleton] at hf
        subst hf
        rfl
      | ok c =>
        rw [ewr_fix_ok llm exec columns r sql e c hx hl] at hf
        rcases List.mem_cons.mp hf with h | h
        · subst h; rfl
        · exact ih (postProcess c) h

theorem runQuery_gen_error (R : Nat) (q g : String)
    (h : llm (sqlPromptFormat q (joinCols columns)) = .error g) :
    runQuery llm exec columns R q =
      (.genFail g, [sqlPromptFormat q (joinCols columns)], [], []) := by
  unfold runQuery generate_sql
  rw [h]
  rfl

theorem runQuery_gen_ok (R : Nat) (q c : String)
    (h : llm (sqlPromptFormat q (joinCols columns)) = .ok c) :
    runQuery llm exec columns R q =
      ((execute_with_retry llm exec columns R (postProcess c)).1,
       [sqlPromptFormat q (joinCols columns)],
       (execute_with_retry llm exec columns R (postProcess c)).2.1,
       (execute_with_retry llm exec columns R (postProcess c)).2.2) := by
  unfold runQuery generate_sql
  rw [h]
  rfl

theorem runQuery_prompt_contains_cols (R : Nat) (q p : String)
    (hp : p ∈ promptsOf (runQuery llm exec columns R q)) :
    ∃ pre post : List Char,
      p.data = pre ++ (joinCols columns).data ++ post := by
  cases hg : llm (sqlPromptFormat q (joinCols columns)) with
  | error g =>
    rw [runQuery_gen_error llm exec columns R q g hg] at hp
    simp only [promptsOf, List.map_nil, List.append_nil, List.mem_singleton] at hp
    subst hp
    exact sqlPromptFormat_contains_cols q (joinCols columns)
  | ok c =>
    rw [runQuery_gen_ok llm exec columns R q c hg] at hp
    simp only [promptsOf] at hp
    rcases List.mem_append.mp hp with h | h
    · rw [List.mem_singleton] at h
      subst h
      exact sqlPromptFormat_contains_cols q (joinCols columns)
    · rcases List.mem_map.mp h with ⟨f, hf, hfp⟩
      have hfp2 := ewr_fix_prompt_mem llm exec columns R (postProcess c) f hf
      subst hfp
      rw [hfp2]
      exact fixPromptFormat_contains_cols f.failedSql f.errorMsg (joinCols columns)

/-- C1: with the default configuration (`retries=2`), the cycle performs at
most 3 execution attempts; if the result is a failure it reports the error
of the last execution attempt; and when every execution fails and every
corrective model call answers, exactly 3 attempts occur and the cycle
terminates in failure with the last error — a 4th attempt never happens. -/
theorem c1_retry_bound_default (sql : String) :
    (execute_with_retry llm exec columns defaultRetries sql).2.1.length ≤ 3 ∧
    (∀ e, (execute_with_retry llm exec columns defaultRetries sql).1 = .execFail e →
      ∃ s, (execute_with_retry llm exec columns defaultRetries sql).2.1.getLast? = some s ∧
        exec s = .error e) ∧
    ((∀ t, ∃ m, exec t = .error m) → (∀ p, ∃ c, llm p = .ok c) →
      ∃ e, (execute_with_retry llm exec columns defaultRetries sql).1 = .execFail e ∧
        (execute_with_retry llm exec columns defaultRetries sql).2.1.length = 3) := by
  refine ⟨ewr_execs_length_le llm exec columns defaultRetries sql, ?_, ?_⟩
  · intro e he
    exact ewr_execFail_last llm exec columns defaultRetries sql e he
  · intro hx hl
    exact ewr_allFail llm exec columns defaultRetries sql hx hl

/-- Witness for C1 at a concrete all-failing engine and an always-answering
model: exactly 3 attempts, terminal failure with the last error. -/
theorem c1_retry_bound_default_witness :
    (execute_with_retry llmAlwaysOk execAlwaysFail ["region"] defaultRetries "BAD").2.1.length ≤ 3 ∧
    ∃ e, (execute_with_retry llmAlwaysOk execAlwaysFail ["region"] defaultRetries "BAD").1 =
        CycleResult.execFail e ∧
      (execute_with_retry llmAlwaysOk execAlwaysFail ["region"] defaultRetries "BAD").2.1.length = 3 :=
  ⟨(c1_retry_bound_default llmAlwaysOk execAlwaysFail ["region"] "BAD").1,
    (c1_retry_bound_default llmAlwaysOk execAlwaysFail ["region"] "BAD").2.2
      (fun _ => ⟨"boom", rfl⟩) (fun _ => ⟨"SELECT 2", rfl⟩)⟩

/-- C2: if execution of the k-th attempted candidate fails and retries
remain (k < retries, 0-indexed, i.e. attempt k+1 ≤ max retries 1-indexed),
then the k-th corrective model call — the single fix call sitting between
attempt k and attempt k+1 in the trace — receives exactly the failing SQL
and the engine error, and its prompt contains the failing SQL verbatim,
the error text verbatim, and the comma-joined column list. -/
theorem c2_exact_fix_call (R : Nat) (sql0 : String) (k : Nat) (s e : String)
    (hget : (execute_with_retry llm exec columns R sql0).2.1.get? k = some s)
    (hse : exec s = .error e) (hk : k < R) :
    (execute_with_retry llm exec columns R sql0).2.2.get? k =
      some ⟨s, e, fixPromptFormat s e (joinCols columns)⟩ ∧
    dataContains s (fixPromptFormat s e (joinCols columns)) ∧
    dataContains e (fixPromptFormat s e (joinCols columns)) ∧
    dataContains (joinCols columns) (fixPromptFormat s e (joinCols columns)) :=
  ⟨ewr_fix_at llm exec columns R sql0 k s e hget hse hk,
   fixPromptFormat_contains_sql s e (joinCols columns),
   fixPromptFormat_contains_error s e (joinCols columns),
   fixPromptFormat_contains_cols s e (joinCols columns)⟩

/-- Witness for C2: attempt 0 fails on `BAD` with `boom`; the fix call at
position 0 carries exactly that SQL, that error and the column list. -/
theorem c2_exact_fix_call_witness :
    (execute_with_retry llmAlwaysOk execAlwaysFail ["region"] 2 "BAD").2.2.get? 0 =
      some ⟨"BAD", "boom", fixPromptFormat "BAD" "boom" (joinCols ["region"])⟩ ∧
    dataContains "BAD" (fixPromptFormat "BAD" "boom" (joinCols ["region"])) ∧
    dataContains "boom" (fixPromptFormat "BAD" "boom" (joinCols ["region"])) ∧
    dataContains (joinCols ["region"]) (fixPromptFormat "BAD" "boom" (joinCols ["region"])) :=
  c2_exact_fix_call llmAlwaysOk execAlwaysFail ["region"] 2 "BAD" 0 "BAD" "boom"
    rfl rfl (by decide)

/-- C3: if the first SQL candidate executes successfully, the cycle makes
zero corrective model calls, performs exactly one execution, and succeeds
with that candidate. -/
theorem c3_no_fix_on_first_success (R : Nat) (q c : String) (rows : ρ)
    (h1 : llm (sqlPromptFormat q (joinCols columns)) = .ok c)
    (h2 : exec (postProcess c) = .ok rows) :
    (runQuery llm exec columns R q).2.2.2 = [] ∧
    (runQuery llm exec columns R q).2.2.1 = [postProcess c] ∧
    (runQuery llm exec columns R q).1 = .ok rows (postProcess c) := by
  rw [runQuery_gen_ok llm exec columns R q c h1,
    ewr_exec_ok llm exec columns R (postProcess c) rows h2]
  exact ⟨rfl, rfl, rfl⟩

/-- Witness for C3 at a concrete always-succeeding engine. -/
theorem c3_no_fix_on_first_success_witness :
    (runQuery llmAlwaysOk execAlwaysOk ["region"] 2 "q").2.2.2 = [] ∧
    (runQuery llmAlwaysOk execAlwaysOk ["region"] 2 "q").2.2.1 = [postProcess "SELECT 2"] ∧
    (runQuery llmAlwaysOk execAlwaysOk ["region"] 2 "q").1 =
      CycleResult.ok 7 (postProcess "SELECT 2") :=
  c3_no_fix_on_first_success llmAlwaysOk execAlwaysOk ["region"] 2 "q" "SELECT 2" 7 rfl rfl

/-- C4: if the generation model call itself fails, the cycle fails
immediately with that failure: no execution attempt and no corrective
model call is made, and the handler surfaces the failure. -/
theorem c4_generation_failure_propagates (R : Nat) (q g : String)
    (h : llm (sqlPromptFormat q (joinCols columns)) = .error g) :
    runQuery llm exec columns R q =
      (.genFail g, [sqlPromptFormat q (joinCols columns)], [], []) ∧
    runHandler llm exec columns q =
      .failure ("❌ Failed to execute query: " ++ g) := by
  refine ⟨runQuery_gen_error llm exec columns R q g h, ?_⟩
  unfold runHandler
  rw [runQuery_gen_error llm exec columns defaultRetries q g h]

/-- Witness for C4 at a concrete always-raising model oracle. -/
theorem c4_generation_failure_propagates_witness :
    runQuery llmAlwaysErr execAlwaysOk ["region"] 2 "q" =
      (.genFail "rate limit", [sqlPromptFormat "q" (joinCols ["region"])], [], []) ∧
    runHandler llmAlwaysErr execAlwaysOk ["region"] "q" =
      .failure ("❌ Failed to execute query: " ++ "rate limit") :=
  c4_generation_failure_propagates llmAlwaysErr execAlwaysOk ["region"] 2 "q" "rate limit" rfl

/-- C5: whenever the cycle succeeds with (rows, sql), executing that very
SQL candidate is what produced those rows, and it was the last execution
attempt of the trace — also when it is a corrected candidate. -/
theorem c5_success_returns_matching_pair (R : Nat) (q : String) (rows : ρ) (s : String)
    (h : (runQuery llm exec columns R q).1 = .ok rows s) :
    exec s = .ok rows ∧
    (runQuery llm exec columns R q).2.2.1.getLast? = some s := by
  cases hg : llm (sqlPromptFormat q (joinCols columns)) with
  | error g =>
    rw [runQuery_gen_error llm exec columns R q g hg] at h
    cases h
  | ok c =>
    rw [runQuery_gen_ok llm exec columns R q c hg] at h ⊢
    exact ewr_ok_exec llm exec columns R (postProcess c) rows s h

set_option maxRecDepth 100000 in
/-- Witness for C5 on a run whose first candidate fails and whose
corrected candidate succeeds: the returned SQL is the corrected one. -/
theorem c5_success_returns_matching_pair_witness :
    execSelective "SELECT region FROM data" = Except.ok 5 ∧
    (runQuery llmFixing execSelective ["region"] 2 "q").2.2.1.getLast? =
      some "SELECT region FROM data" :=
  c5_success_returns_matching_pair llmFixing execSelective ["region"] 2 "q" 5
    "SELECT region FROM data" rfl

/-- C6: after any history of uploads followed by a final upload of dataset
`d`, every prompt sent to the model during a cycle (the generation prompt
and every fix prompt) contains the comma-joined column list of `d` — the
currently loaded schema — verbatim. -/
theorem c6_schema_freshness (con : Conn) (prior : List Dataset) (d : Dataset)
    (lm : String → Except String String) (ex : String → Except String ρ)
    (R : Nat) (q p : String)
    (hp : p ∈ promptsOf (runQuery lm ex
      (uploadHandler (prior.foldl (fun c d0 => (uploadHandler c d0).1) con) d).2 R q)) :
    ∃ pre post : List Char, p.data = pre ++ (joinCols d.columns).data ++ post :=
  runQuery_prompt_contains_cols lm ex d.columns R q p hp

/-- Witness for C6: after uploading a one-column dataset and then
re-uploading a `region, sales` dataset, the generation prompt of a run
contains `region, sales`. -/
theorem c6_schema_freshness_witness :
    ∃ pre post : List Char,
      (sqlPromptFormat "total sales" (joinCols ["region", "sales"])).data =
        pre ++ (joinCols ["region", "sales"]).data ++ post :=
  c6_schema_freshness conEmpty [Dataset.mk ["old_col"] []] (Dataset.mk ["region", "sales"] [])
    llmAlwaysOk execAlwaysOk 2 "total sales"
    (sqlPromptFormat "total sales" (joinCols ["region", "sales"]))
    (List.Mem.head _)

/-- C7 counterexample: at a concrete input the claim fails.  The engine
always raises `boom`; the candidates attempted end with `SELECT 2`; the
terminal failure re-raises only the error, and the message surfaced to
the caller (`❌ Failed to execute query: boom`) does not carry the last
SQL candidate `SELECT 2` at all. -/
theorem c7_counterexample :
    (runQuery llmAlwaysOk execAlwaysFail ["region"] defaultRetries "q").1 =
      CycleResult.execFail "boom" ∧
    (runQuery llmAlwaysOk execAlwaysFail ["region"] defaultRetries "q").2.2.1.getLast? =
      some "SELECT 2" ∧
    runHandler llmAlwaysOk execAlwaysFail ["region"] "q" =
      UiView.failure "❌ Failed to execute query: boom" ∧
    ¬ dataContains "SELECT 2" "❌ Failed to execute query: boom" := by
  refine ⟨rfl, rfl, rfl, ?_⟩
  rintro ⟨pre, post, h⟩
  have hc : containsSeg ("SELECT 2").data ("❌ Failed to execute query: boom").data = true :=
    containsSeg_of_decomp _ pre post _ (h.trans (List.append_assoc pre _ post))
  have hf : containsSeg ("SELECT 2").data ("❌ Failed to execute query: boom").data = false := by
    decide
  rw [hf] at hc
  cases hc

/-- C7 amended: when the retry bound is reached, the terminal failure
surfaced to the caller carries the last execution error message (the last
`ExecutionError` is re-raised and displayed); the last SQL candidate is
the last entry of the execution trace but is not attached to the surfaced
failure. -/
theorem c7_amended_failure_carries_last_error (q e : String)
    (h : (runQuery llm exec columns defaultRetries q).1 = .execFail e) :
    runHandler llm exec columns q = .failure ("❌ Failed to execute query: " ++ e) ∧
    ∃ s, (runQuery llm exec columns defaultRetries q).2.2.1.getLast? = some s ∧
      exec s = .error e := by
  constructor
  · unfold runHandler
    rw [h]
  · cases hg : llm (sqlPromptFormat q (joinCols columns)) with
    | error g =>
      rw [runQuery_gen_error llm exec columns defaultRetries q g hg] at h
      cases h
    | ok c =>
      rw [runQuery_gen_ok llm exec columns defaultRetries q c hg] at h ⊢
      exact ewr_execFail_last llm exec columns defaultRetries (postProcess c) e h

/-- Witness for the amended C7 at a concrete all-failing engine. -/
theorem c7_amended_failure_carries_last_error_witness :
    runHandler llmAlwaysOk execAlwaysFail ["region"] "q" =
      UiView.failure ("❌ Failed to execute query: " ++ "boom") ∧
    ∃ s, (runQuery llmAlwaysOk execAlwaysFail ["region"] defaultRetries "q").2.2.1.getLast? =
        some s ∧ execAlwaysFail s = .error "boom" :=
  c7_amended_failure_carries_last_error llmAlwaysOk execAlwaysFail ["region"] "q" "boom" rfl

/-- C8: uploading a dataset binds the table `data` to exactly the new
dataset — the same result whatever was loaded before, hence a full
replace — and retains the new dataset's ordered column list as the
schema. -/
theorem c8_upload_full_replace (con con' : Conn) (d : Dataset) :
    (uploadHandler con d).1 "data" = some d ∧
    (uploadHandler con d).2 = d.columns ∧
    (uploadHandler con d).1 "data" = (uploadHandler con' d).1 "data" := by
  refine ⟨?_, rfl, ?_⟩ <;> simp [uploadHandler, createOrReplaceTable]

/-- C9: the SQL candidate derived from a model response is exactly the
response with leading and trailing whitespace stripped —
`.replace("", "")` is the identity, removing nothing further — in the
generation path (and the fix path applies the same `postProcess`). -/
theorem c9_candidate_is_stripped_response :
    (∀ s : String, postProcess s = pyStrip s) ∧
    (∀ (lm : String → Except String String) (cols : List String) (q : String),
      generate_sql lm cols q =
        (lm (sqlPromptFormat q (joinCols cols))).map pyStrip) := by
  constructor
  · exact postProcess_eq_pyStrip
  · intro lm cols q
    unfold generate_sql
    cases lm (sqlPromptFormat q (joinCols cols)) with
    | error g => rfl
    | ok c => simp [Except.map, postProcess_eq_pyStrip]

/-- C10: for every retries parameter `r`, `execute_with_retry` terminates
(it is a total function) with at most `r + 1` execution calls and at most
`r` corrective model calls; with `r = 0` a failing first execution
propagates immediately with no model call at all. -/
theorem c10_general_termination_bounds (r : Nat) (sql : String) :
    (execute_with_retry llm exec columns r sql).2.1.length ≤ r + 1 ∧
    (execute_with_retry llm exec columns r sql).2.2.length ≤ r ∧
    (∀ e, exec sql = .error e →
      execute_with_retry llm exec columns 0 sql = (.execFail e, [sql], [])) := by
  refine ⟨ewr_execs_length_le llm exec columns r sql,
    ewr_fixes_length_le llm exec columns r sql, ?_⟩
  intro e he
  exact ewr_exec_fail_zero llm exec columns sql e he

/-- Witness for C10 at `r = 0` with a failing engine: one execution, zero
model calls, immediate propagation of the error. -/
theorem c10_general_termination_bounds_witness :
    (execute_with_retry llmAlwaysOk execAlwaysFail ["region"] 0 "BAD").2.1.length ≤ 1 ∧
    (execute_with_retry llmAlwaysOk execAlwaysFail ["region"] 0 "BAD").2.2.length ≤ 0 ∧
    execute_with_retry llmAlwaysOk execAlwaysFail ["region"] 0 "BAD" =
      (CycleResult.execFail "boom", ["BAD"], []) := by
  obtain ⟨h1, h2, h3⟩ :=
    c10_general_termination_bounds llmAlwaysOk execAlwaysFail ["region"] 0 "BAD"
  exact ⟨h1, h2, h3 "boom" rfl⟩

end Botted
